import Mathlib

/-!
# Verification of the barber-booking backend scheduling core

Shallow embedding of the booking backend's scheduling and lifecycle core:

* time utilities from `src/services/types.ts`;
* the booking transaction engine `createAppointment` and the availability
  containment check `checkBarberAvailability` from
  `src/services/appointment.service.ts`;
* the lifecycle operations `cancelAppointment` route
  (`src/routes/appointments.ts`), `markNoShow`, `completeAppointment`,
  `detectNoShows`, `resetNoShowCount`, `isCustomerBlocked`
  (`src/services/cancellation.service.ts`);
* the Stripe webhook confirmation handler (`src/routes/webhooks.ts`) and
  payment-intent creation (`src/services/payment.service.ts`);
* the availability resolver `getAvailableSlots` / `getBookableSlots`
  (`src/services/availability.service.ts`).

Modelling conventions:

* A JavaScript `Date` is an `Int` of milliseconds since the epoch; the
  process-local timezone is taken as UTC, so `setHours`/`getMinutes`/`getDay`
  are plain modular arithmetic on milliseconds.
* The ambient `new Date()` calls of the source are made explicit `now`
  parameters (the repository's own design notes call for an injected clock).
* Database rows live in plain lists inside a `Store`; `findUnique` becomes
  `List.find?`, `findMany`+`where` becomes `List.filter`, `update` maps over
  the list, and a Prisma transaction is the corresponding pure function on
  the whole store (its atomicity is what the functional embedding gives for
  free).
* Nullable `startTime`/`endTime` strings of an `Availability` row are
  `Option TimeOfDay`; the source's truthiness test `a.startTime && a.endTime`
  becomes `Option.isSome`.  A rule with a missing time never matches or
  produces a window (in JS the `NaN` arithmetic of an invalid date makes all
  of its comparisons false, with the same effect).
-/

/-! ## Int utilities (src/services/types.ts) -/

/- A JS `Date` is embedded as an `Int` of milliseconds since the epoch
(called a "time" below). -/

def msPerMinute : Int := 60 * 1000

def msPerHour : Int := 60 * 60 * 1000

def msPerDay : Int := 24 * 60 * 60 * 1000

/-- Embeds `startOfDay`: normalize a date to midnight (`setHours(0,0,0,0)`). -/
def startOfDay (t : Int) : Int := t - t % msPerDay

/-- Embeds `endOfDay`: normalize a date to 23:59:59.999. -/
def endOfDay (t : Int) : Int := startOfDay t + msPerDay - 1

/-- Embeds `addMinutes(date, minutes)`. -/
def addMinutes (t : Int) (m : Int) : Int := t + m * msPerMinute

/-- Embeds `getDayOfWeek`: `date.getDay()`, 0 = Sunday.  1970-01-01 was a Thursday. -/
def getDayOfWeek (t : Int) : Int := (t.fdiv msPerDay + 4) % 7

/-- An `HH:MM` time-of-day string, already parsed (`parseTimeString`). -/
structure TimeOfDay where
  hours : Int
  minutes : Int
deriving DecidableEq, Repr

/-- Embeds `combineDateAndTime(date, timeStr)`: `new Date(date)` with
`setHours(hours, minutes, 0, 0)`. -/
def combineDateAndTime (d : Int) (tod : TimeOfDay) : Int :=
  startOfDay d + tod.hours * msPerHour + tod.minutes * msPerMinute

/-- Embeds `doTimeRangesOverlap`: `[start1, end1)` meets `[start2, end2)`. -/
def doTimeRangesOverlap (start1 end1 start2 end2 : Int) : Bool :=
  start1 < end2 && start2 < end1

/-- Embeds the `date-fns` `differenceInHours` as used by the cancel route: the signed
difference in hours truncated toward zero (`Math.trunc`). -/
def differenceInHoursTrunc (a b : Int) : Int := Int.tdiv (a - b) msPerHour

/-! ## Data model (prisma schema) -/

inductive AppointmentStatus where
  | BOOKED
  | CONFIRMED
  | CANCELLED
  | COMPLETED
  | NO_SHOW
deriving DecidableEq, Repr

inductive PaymentStatus where
  | REQUIRES_PAYMENT
  | PAID
  | REFUNDED
  | FAILED
deriving DecidableEq, Repr

/-- An `Availability` row: a recurring weekly rule (`isException = false`,
keyed by `dayOfWeek`) or a dated exception (`isException = true`, keyed by
`date`).  A `none` time models a NULL/empty string (a "day off" marker). -/
structure Availability where
  isException : Bool
  dayOfWeek : Int
  date : Option Int
  startTime : Option TimeOfDay
  endTime : Option TimeOfDay
deriving DecidableEq, Repr

structure Barber where
  id : Nat
  shopId : Nat
  active : Bool
  availability : List Availability
deriving DecidableEq, Repr

structure Service where
  id : Nat
  shopId : Nat
  barberId : Option Nat
  durationMinutes : Int
deriving DecidableEq, Repr

structure Appointment where
  id : Nat
  barberId : Nat
  customerId : Nat
  serviceId : Nat
  startTime : Int
  endTime : Int
  status : AppointmentStatus
  cancellationReason : Option Nat
deriving DecidableEq, Repr

structure Payment where
  id : Nat
  stripePaymentIntentId : Nat
  status : PaymentStatus
  customerId : Nat
  appointmentId : Option Nat
  amountCents : Int
deriving DecidableEq, Repr

structure NoShowFlag where
  customerId : Nat
  count : Int
  lastFlaggedAt : Option Int
deriving DecidableEq, Repr

/-- The persistent store: one list per table plus id counters. -/
structure Store where
  barbers : List Barber
  services : List Service
  users : List Nat
  appointments : List Appointment
  payments : List Payment
  noShowFlags : List NoShowFlag
  nextAppointmentId : Nat
  nextPaymentId : Nat
deriving DecidableEq, Repr

/-! ## Result types and configuration (src/services/types.ts) -/

inductive ErrorCode where
  | BOOKING_IN_PAST
  | OVERLAPPING_APPOINTMENT
  | BARBER_UNAVAILABLE
  | BARBER_NOT_FOUND
  | SERVICE_NOT_FOUND
  | CUSTOMER_NOT_FOUND
  | BARBER_NOT_ACTIVE
  | CUSTOMER_BLOCKED
  | APPOINTMENT_NOT_FOUND
  | APPOINTMENT_ALREADY_CANCELLED
  | APPOINTMENT_ALREADY_COMPLETED
  | CANNOT_CANCEL_PAST_APPOINTMENT
  | INVALID_DATE_RANGE
  | CONCURRENT_MODIFICATION
  | INTERNAL_ERROR
  | INVALID_APPOINTMENT_STATE
  | PAYMENT_ALREADY_EXISTS
  | CANCELLATION_WINDOW_PASSED
  | STRIPE_ERROR
deriving DecidableEq, Repr

/-- Embeds `ServiceResult<T>` without the human-readable messages. -/
inductive ServiceResult (α : Type) where
  | success (data : α)
  | failure (code : ErrorCode)
deriving DecidableEq, Repr

structure BookingConfig where
  bufferMinutes : Int
  lateCancellationHours : Int
  defaultSlotDurationMinutes : Int
deriving DecidableEq, Repr

def DEFAULT_BOOKING_CONFIG : BookingConfig :=
  { bufferMinutes := 10, lateCancellationHours := 6, defaultSlotDurationMinutes := 30 }

/-- Embeds `CANCELLATION_POLICY.REFUND_CUTOFF_HOURS` (src/config/cancellation.ts). -/
def REFUND_CUTOFF_HOURS : Int := 24

/-- Embeds `NO_SHOW_POLICY.GRACE_PERIOD_MINUTES` (src/config/noShow.ts). -/
def GRACE_PERIOD_MINUTES : Int := 10

/-! ## Store helpers -/

def findBarber (s : Store) (id : Nat) : Option Barber :=
  s.barbers.find? (fun b => b.id == id)

def findService (s : Store) (id : Nat) : Option Service :=
  s.services.find? (fun sv => sv.id == id)

def findAppointment (s : Store) (id : Nat) : Option Appointment :=
  s.appointments.find? (fun a => a.id == id)

/-- The one-to-one `appointment.payment` relation. -/
def findPaymentForAppointment (s : Store) (apptId : Nat) : Option Payment :=
  s.payments.find? (fun p => p.appointmentId == some apptId)

def findPaymentByIntent (s : Store) (intentId : Nat) : Option Payment :=
  s.payments.find? (fun p => p.stripePaymentIntentId == intentId)

def updateAppointment (s : Store) (id : Nat) (f : Appointment → Appointment) : Store :=
  { s with appointments := s.appointments.map (fun a => if a.id == id then f a else a) }

def updatePayment (s : Store) (id : Nat) (f : Payment → Payment) : Store :=
  { s with payments := s.payments.map (fun p => if p.id == id then f p else p) }

/-- Embeds `noShowFlag.upsert`: increment the counter (creating the row at 1) and
stamp `lastFlaggedAt`; also returns the resulting count. -/
def upsertNoShowFlag (s : Store) (customerId : Nat) (now : Int) : Store × Int :=
  match s.noShowFlags.find? (fun f => f.customerId == customerId) with
  | some f =>
      ({ s with noShowFlags := s.noShowFlags.map (fun g =>
          if g.customerId == customerId then
            { g with count := g.count + 1, lastFlaggedAt := some now }
          else g) },
       f.count + 1)
  | none =>
      ({ s with noShowFlags :=
          s.noShowFlags ++ [{ customerId := customerId, count := 1, lastFlaggedAt := some now }] },
       1)

/-- Embeds `getCustomerNoShowCount`: a customer with no flag row counts as 0. -/
def getCustomerNoShowCount (s : Store) (customerId : Nat) : Int :=
  match s.noShowFlags.find? (fun f => f.customerId == customerId) with
  | some f => f.count
  | none => 0

/-- Embeds `isCustomerBlocked(prisma, customerId, maxNoShows = 3)`. -/
def isCustomerBlocked (s : Store) (customerId : Nat) (maxNoShows : Int) : Bool :=
  getCustomerNoShowCount s customerId ≥ maxNoShows

/-- Embeds `resetNoShowCount`: zero the counter and clear `lastFlaggedAt` (no-op when
no flag row exists). -/
def resetNoShowCount (s : Store) (customerId : Nat) : Store :=
  match s.noShowFlags.find? (fun f => f.customerId == customerId) with
  | some _ =>
      { s with noShowFlags := s.noShowFlags.map (fun g =>
          if g.customerId == customerId then
            { g with count := 0, lastFlaggedAt := none }
          else g) }
  | none => s

/-! ## Availability rule resolution (appointment.service.ts / availability.service.ts)

Both `checkBarberAvailability` and `calculateDaySlotsForDate` split the
barber's rules into dated exceptions and weekly rules with the same two
filters; exceptions for the date, when present, completely replace the
weekly rules. -/

/-- Exceptions whose `date` falls on the given day
(`a.isException && a.date && startOfDay(a.date).getTime() === day`). -/
def exceptionsForDate (rules : List Availability) (dayStart : Int) : List Availability :=
  rules.filter (fun a =>
    a.isException && (match a.date with
      | some d => startOfDay d == dayStart
      | none => false))

/-- Weekly rules for the given day of week
(`!a.isException && a.dayOfWeek === dayOfWeek`). -/
def weeklyForDay (rules : List Availability) (dow : Int) : List Availability :=
  rules.filter (fun a => !a.isException && a.dayOfWeek == dow)

/-- Embeds `exceptionForDate.some(a => a.startTime && a.endTime)`. -/
def hasValidTimeSlots (exc : List Availability) : Bool :=
  exc.any (fun a => a.startTime.isSome && a.endTime.isSome)

/-- Embeds `checkBarberAvailability` (appointment.service.ts): does `[requestedStart,
requestedEnd]` fit entirely inside one applicable availability window? -/
def checkBarberAvailability (rules : List Availability)
    (requestedStart requestedEnd : Int) : Bool :=
  let appointmentDate := startOfDay requestedStart
  let dow := getDayOfWeek requestedStart
  let exc := exceptionsForDate rules appointmentDate
  let weekly := weeklyForDay rules dow
  let applicableRules := if !exc.isEmpty then exc else weekly
  if !exc.isEmpty && !hasValidTimeSlots exc then
    false
  else if applicableRules.isEmpty then
    false
  else
    applicableRules.any (fun rule =>
      match rule.startTime, rule.endTime with
      | some st, some et =>
          let ruleStart := combineDateAndTime appointmentDate st
          let ruleEnd := combineDateAndTime appointmentDate et
          decide (ruleStart ≤ requestedStart) && decide (requestedEnd ≤ ruleEnd)
      | _, _ => false)

/-! ## Booking transaction engine (appointment.service.ts) -/

structure CreateAppointmentInput where
  barberId : Nat
  customerId : Nat
  serviceId : Nat
  startTime : Int
deriving DecidableEq, Repr

/-- The Prisma `findMany` where-clause of the overlap query: the stored
appointment's raw range meets the buffered search window. -/
def overlapQueryPrefilter (apt : Appointment) (searchStart searchEnd : Int) : Bool :=
  (searchStart ≤ apt.startTime && apt.startTime < searchEnd) ||
  (searchStart < apt.endTime && apt.endTime ≤ searchEnd) ||
  (apt.startTime ≤ searchStart && searchEnd ≤ apt.endTime)

/-- Embeds `createAppointment` (appointment.service.ts): full validation pipeline and
insert, as one atomic transaction.  Returns the service result together with
the store after the call. -/
def createAppointment (s : Store) (input : CreateAppointmentInput) (now : Int)
    (cfg : BookingConfig) : ServiceResult Appointment × Store :=
  -- Check 1: prevent booking in the past
  if input.startTime ≤ now then
    (.failure .BOOKING_IN_PAST, s)
  -- Check 2: prevent booking if the customer has too many no-shows
  else if isCustomerBlocked s input.customerId 3 then
    (.failure .CUSTOMER_BLOCKED, s)
  else
    match findBarber s input.barberId with
    | none => (.failure .BARBER_NOT_FOUND, s)
    | some barber =>
      if !barber.active then
        (.failure .BARBER_NOT_ACTIVE, s)
      else
        match findService s input.serviceId with
        | none => (.failure .SERVICE_NOT_FOUND, s)
        | some service =>
          if !s.users.contains input.customerId then
            (.failure .CUSTOMER_NOT_FOUND, s)
          else
            let endTime := addMinutes input.startTime service.durationMinutes
            if !checkBarberAvailability barber.availability input.startTime endTime then
              (.failure .BARBER_UNAVAILABLE, s)
            else
              let bufferMs := cfg.bufferMinutes * 60 * 1000
              let searchStart := input.startTime - bufferMs
              let searchEnd := endTime + bufferMs
              let overlappingAppointments := s.appointments.filter (fun apt =>
                apt.barberId == input.barberId &&
                apt.status == .BOOKED &&
                overlapQueryPrefilter apt searchStart searchEnd)
              let confirmedOverlaps := overlappingAppointments.filter (fun apt =>
                doTimeRangesOverlap input.startTime endTime
                  (apt.startTime - bufferMs) (apt.endTime + bufferMs))
              if !confirmedOverlaps.isEmpty then
                (.failure .OVERLAPPING_APPOINTMENT, s)
              else
                let appt : Appointment :=
                  { id := s.nextAppointmentId
                    barberId := input.barberId
                    customerId := input.customerId
                    serviceId := input.serviceId
                    startTime := input.startTime
                    endTime := endTime
                    status := .BOOKED
                    cancellationReason := none }
                (.success appt,
                 { s with appointments := s.appointments ++ [appt],
                          nextAppointmentId := s.nextAppointmentId + 1 })

/-! ## Appointment lifecycle (routes/appointments.ts, cancellation.service.ts) -/

/-- Is the status terminal for the cancel route's purposes? -/
def isTerminalStatus (st : AppointmentStatus) : Bool :=
  st == .CANCELLED || st == .COMPLETED || st == .NO_SHOW

/-- Embeds `POST /appointments/:id/cancel` (routes/appointments.ts).  `gatewayOk`
models the outcome of the Stripe `refundPayment` call: the call is made
(strictly before the database transaction) exactly when `shouldRefund`
holds, and `gatewayOk = false` means it threw. -/
def cancelAppointmentRoute (s : Store) (id : Nat) (reason : Option Nat)
    (now : Int) (gatewayOk : Bool) : ServiceResult Unit × Store :=
  match findAppointment s id with
  | none => (.failure .APPOINTMENT_NOT_FOUND, s)
  | some appointment =>
    let payment := findPaymentForAppointment s id
    -- cannot cancel if already cancelled, completed, or no-show
    if isTerminalStatus appointment.status then
      (.failure .INVALID_APPOINTMENT_STATE, s)
    -- cannot cancel after the appointment has started: isAfter(now, startTime)
    else if appointment.startTime < now then
      (.failure .CANCELLATION_WINDOW_PASSED, s)
    else
      let hoursBeforeStart := differenceInHoursTrunc appointment.startTime now
      let shouldRefund :=
        (match payment with
         | some p => p.status == .PAID
         | none => false) && hoursBeforeStart ≥ REFUND_CUTOFF_HOURS
      -- refund FIRST (outside the DB transaction); a gateway error aborts
      -- the request before any state change
      if shouldRefund && !gatewayOk then
        (.failure .STRIPE_ERROR, s)
      else
        let s1 := updateAppointment s id (fun a =>
          { a with status := .CANCELLED, cancellationReason := reason })
        let s2 :=
          match payment with
          | some p => updatePayment s1 p.id (fun q =>
              { q with status := if shouldRefund then .REFUNDED else q.status })
          | none => s1
        (.success (), s2)

structure NoShowResult where
  appointmentId : Nat
  customerId : Nat
  noShowCount : Int
deriving DecidableEq, Repr

/-- Embeds `markNoShow` (cancellation.service.ts): only `BOOKED` appointments whose
start time has passed can be marked; increments the customer's flag. -/
def markNoShow (s : Store) (appointmentId : Nat) (now : Int) :
    ServiceResult NoShowResult × Store :=
  match findAppointment s appointmentId with
  | none => (.failure .APPOINTMENT_NOT_FOUND, s)
  | some appointment =>
    if appointment.status != .BOOKED then
      (.failure .APPOINTMENT_ALREADY_COMPLETED, s)
    else if now < appointment.startTime then
      (.failure .BOOKING_IN_PAST, s)
    else
      let s1 := updateAppointment s appointmentId (fun a => { a with status := .NO_SHOW })
      let (s2, cnt) := upsertNoShowFlag s1 appointment.customerId now
      (.success { appointmentId := appointmentId,
                  customerId := appointment.customerId,
                  noShowCount := cnt }, s2)

/-- Embeds `completeAppointment` (cancellation.service.ts): only `BOOKED`
appointments can be completed. -/
def completeAppointment (s : Store) (appointmentId : Nat) :
    ServiceResult AppointmentStatus × Store :=
  match findAppointment s appointmentId with
  | none => (.failure .APPOINTMENT_NOT_FOUND, s)
  | some appointment =>
    if appointment.status != .BOOKED then
      (.failure .APPOINTMENT_ALREADY_COMPLETED, s)
    else
      (.success .COMPLETED,
       updateAppointment s appointmentId (fun a => { a with status := .COMPLETED }))

/-! ## Automated no-show sweep (cancellation.service.ts `detectNoShows`) -/

structure NoShowDetectionResult where
  scanned : Nat
  markedAsNoShow : Nat
  details : List NoShowResult
deriving DecidableEq, Repr

/-- Insertion into a list sorted by `startTime` (embeds `orderBy: startTime asc`). -/
def insertByStartTime (a : Appointment) : List Appointment → List Appointment
  | [] => [a]
  | b :: rest =>
      if a.startTime ≤ b.startTime then a :: b :: rest
      else b :: insertByStartTime a rest

def sortByStartTime (l : List Appointment) : List Appointment :=
  l.foldr insertByStartTime []

/-- One iteration of the `detectNoShows` loop: mark the appointment `NO_SHOW`
and increment its customer's flag, in one transaction. -/
def sweepOne (now : Int) (acc : Store × List NoShowResult) (appointment : Appointment) :
    Store × List NoShowResult :=
  let s1 := updateAppointment acc.1 appointment.id (fun a => { a with status := .NO_SHOW })
  let (s2, cnt) := upsertNoShowFlag s1 appointment.customerId now
  (s2, acc.2 ++ [{ appointmentId := appointment.id,
                   customerId := appointment.customerId,
                   noShowCount := cnt }])

/-- The selection predicate of the sweep: `CONFIRMED` appointments whose
`startTime` lies more than the grace period in the past. -/
def sweepEligible (now : Int) (a : Appointment) : Bool :=
  a.status == .CONFIRMED && a.startTime < now - GRACE_PERIOD_MINUTES * msPerMinute

/-- Embeds `detectNoShows` (cancellation.service.ts): find every `CONFIRMED`
appointment past the grace period, mark each `NO_SHOW` and increment its
customer's no-show flag. -/
def detectNoShows (s : Store) (now : Int) : NoShowDetectionResult × Store :=
  let eligibleAppointments := sortByStartTime (s.appointments.filter (sweepEligible now))
  let (s', details) := eligibleAppointments.foldl (sweepOne now) (s, [])
  ({ scanned := eligibleAppointments.length,
     markedAsNoShow := details.length,
     details := details }, s')

/-! ## Payments (payment.service.ts, routes/webhooks.ts) -/

/-- Embeds `createPaymentIntentForAppointment` (payment.service.ts), with the
transport-level authorization check out of scope: validates the appointment
is `BOOKED` and has no payment yet, then persists a `REQUIRES_PAYMENT` row
carrying the gateway's intent id. -/
def createPaymentIntentForAppointment (s : Store) (appointmentId intentId : Nat) :
    ServiceResult Unit × Store :=
  match findAppointment s appointmentId with
  | none => (.failure .APPOINTMENT_NOT_FOUND, s)
  | some appointment =>
    if appointment.status != .BOOKED then
      (.failure .INVALID_APPOINTMENT_STATE, s)
    else
      match findPaymentForAppointment s appointmentId with
      | some _ => (.failure .PAYMENT_ALREADY_EXISTS, s)
      | none =>
          let p : Payment :=
            { id := s.nextPaymentId
              stripePaymentIntentId := intentId
              status := .REQUIRES_PAYMENT
              customerId := appointment.customerId
              appointmentId := some appointmentId
              amountCents := 500 }
          (.success (), { s with payments := s.payments ++ [p],
                                 nextPaymentId := s.nextPaymentId + 1 })

/-- The `payment_intent.succeeded` branch of the Stripe webhook
(routes/webhooks.ts): idempotently mark the payment `PAID` and confirm the
appointment. -/
def confirmPaymentWebhook (s : Store) (intentId : Nat) : Store :=
  match findPaymentByIntent s intentId with
  | none => s
  | some payment =>
    if payment.status == .PAID then s
    else
      let s1 := updatePayment s payment.id (fun q => { q with status := .PAID })
      match payment.appointmentId with
      | some aid => updateAppointment s1 aid (fun a => { a with status := .CONFIRMED })
      | none => s1

/-! ## Availability resolver (availability.service.ts) -/

structure TimeSlot where
  startTime : Int
  endTime : Int
deriving DecidableEq, Repr

structure DailyAvailability where
  date : Int
  slots : List TimeSlot
deriving DecidableEq, Repr

/-- Insertion into a list of slots sorted by `startTime` (embeds the
`[...blocked].sort((a, b) => a.startTime - b.startTime)` step). -/
def insertSlotByStart (a : TimeSlot) : List TimeSlot → List TimeSlot
  | [] => [a]
  | b :: rest =>
      if a.startTime ≤ b.startTime then a :: b :: rest
      else b :: insertSlotByStart a rest

def sortSlotsByStart (l : List TimeSlot) : List TimeSlot :=
  l.foldr insertSlotByStart []

/-- Embeds `subtractBlockedRanges`: remove the blocked ranges from a free window,
returning the remaining gaps. -/
def subtractBlockedRanges (window : TimeSlot) (blocked : List TimeSlot) : List TimeSlot :=
  let sortedBlocked := sortSlotsByStart blocked
  let relevantBlocked := sortedBlocked.filter (fun b =>
    b.startTime < window.endTime && window.startTime < b.endTime)
  if relevantBlocked.isEmpty then
    [window]
  else
    let step := fun (acc : List TimeSlot × Int) (b : TimeSlot) =>
      let freeSlots := acc.1
      let currentStart := acc.2
      let freeSlots' :=
        if currentStart < b.startTime then
          freeSlots ++ [{ startTime := currentStart,
                          endTime := min b.startTime window.endTime }]
        else freeSlots
      let currentStart' := if currentStart < b.endTime then b.endTime else currentStart
      (freeSlots', currentStart')
    let (freeSlots, currentStart) := relevantBlocked.foldl step ([], window.startTime)
    if currentStart < window.endTime then
      freeSlots ++ [{ startTime := currentStart, endTime := window.endTime }]
    else freeSlots

/-- Embeds `calculateDaySlotsForDate` (availability.service.ts): free windows of one
calendar day, after rule resolution, past-clipping against `now`, blocked-range
subtraction and the minimum-duration filter. -/
def calculateDaySlotsForDate (date : Int) (availability : List Availability)
    (appointments : List Appointment) (slotDurationMinutes bufferMinutes : Int)
    (now : Int) : List TimeSlot :=
  let dayStart := startOfDay date
  let dow := getDayOfWeek date
  let exc := exceptionsForDate availability dayStart
  let weekly := weeklyForDay availability dow
  let applicableRules := if !exc.isEmpty then exc else weekly
  if !exc.isEmpty && !hasValidTimeSlots exc then
    []
  else if applicableRules.isEmpty then
    []
  else
    let dayEnd := endOfDay date
    let dayAppointments := appointments.filter (fun apt =>
      dayStart ≤ apt.startTime && apt.startTime ≤ dayEnd)
    let blockedRanges : List TimeSlot := dayAppointments.map (fun apt =>
      { startTime := apt.startTime - bufferMinutes * msPerMinute,
        endTime := apt.endTime + bufferMinutes * msPerMinute })
    let allFreeSlots := applicableRules.foldl (fun acc rule =>
      match rule.startTime, rule.endTime with
      | some st, some et =>
          let windowStart := combineDateAndTime date st
          let windowEnd := combineDateAndTime date et
          if windowEnd ≤ now then acc
          else
            let effectiveStart := if windowStart < now then now else windowStart
            acc ++ subtractBlockedRanges
              { startTime := effectiveStart, endTime := windowEnd } blockedRanges
      | _, _ => acc) []
    allFreeSlots.filter (fun slot =>
      slot.endTime - slot.startTime ≥ slotDurationMinutes * msPerMinute)

structure AvailableSlotsInput where
  barberId : Nat
  startDate : Int
  endDate : Int
  serviceDurationMinutes : Option Int
deriving DecidableEq, Repr

/-- Embeds `getAvailableSlots` (availability.service.ts): per-day free windows over a
date range, skipping days with no slots. -/
def getAvailableSlots (s : Store) (input : AvailableSlotsInput) (now : Int)
    (cfg : BookingConfig) : ServiceResult (List DailyAvailability) :=
  if input.endDate ≤ input.startDate then
    .failure .INVALID_DATE_RANGE
  else
    let today := startOfDay now
    let normalizedStartDate :=
      if input.startDate < today then today else startOfDay input.startDate
    let normalizedEndDate := endOfDay input.endDate
    match findBarber s input.barberId with
    | none => .failure .BARBER_NOT_FOUND
    | some barber =>
      if !barber.active then
        .failure .BARBER_NOT_ACTIVE
      else
        let existingAppointments := sortByStartTime (s.appointments.filter (fun a =>
          a.barberId == input.barberId && a.status == .BOOKED &&
          normalizedStartDate ≤ a.startTime && a.endTime ≤ normalizedEndDate))
        let slotDuration :=
          input.serviceDurationMinutes.getD cfg.defaultSlotDurationMinutes
        -- the `while (currentDate <= normalizedEndDate)` day loop
        let numDays : Nat :=
          if normalizedEndDate < normalizedStartDate then 0
          else (normalizedEndDate - normalizedStartDate).toNat / msPerDay.toNat + 1
        let dailyAvailability := (List.range numDays).foldl (fun acc k =>
          let currentDate := normalizedStartDate + (k : Int) * msPerDay
          let daySlots := calculateDaySlotsForDate currentDate barber.availability
            existingAppointments slotDuration cfg.bufferMinutes now
          if !daySlots.isEmpty then
            acc ++ [{ date := currentDate, slots := daySlots }]
          else acc) []
        .success dailyAvailability

/-- Embeds `roundUpToInterval`: round a time up to the next interval boundary within
its hour (`setMinutes` rolls any overflow into the following hour). -/
def roundUpToInterval (t : Int) (intervalMinutes : Int) : Int :=
  let minutes := (t.fdiv msPerMinute) % 60
  let remainder := minutes % intervalMinutes
  if remainder == 0 && (t.fdiv 1000) % 60 == 0 && t % 1000 == 0 then t
  else
    let hourStart := t - t % msPerHour
    hourStart + (minutes + (intervalMinutes - remainder)) * msPerMinute

/-- The `while (true)` slot loop of `generateDiscreteSlots`, with an explicit
fuel bound.  The source loop stops as soon as `slotStart + duration` crosses
the window end; for any positive `intervalMinutes` the fuel chosen in
`generateDiscreteSlots` (one unit per minute of window, plus one) is larger
than the number of iterations the source performs, so the two agree. -/
def generateSlotsInWindow (fuel : Nat) (slotStart windowEnd : Int)
    (serviceDurationMinutes intervalMinutes : Int) : List TimeSlot :=
  match fuel with
  | 0 => []
  | fuel + 1 =>
    let slotEnd := addMinutes slotStart serviceDurationMinutes
    if windowEnd < slotEnd then []
    else
      { startTime := slotStart, endTime := slotEnd } ::
        generateSlotsInWindow fuel (addMinutes slotStart intervalMinutes)
          windowEnd serviceDurationMinutes intervalMinutes

/-- Embeds `generateDiscreteSlots`: quantize each free window into concrete start
times on the interval grid, keeping slots that fit entirely in the window. -/
def generateDiscreteSlots (freeWindows : List TimeSlot)
    (serviceDurationMinutes intervalMinutes : Int) : List TimeSlot :=
  freeWindows.foldl (fun acc window =>
    let slotStart := roundUpToInterval window.startTime intervalMinutes
    let fuel := (window.endTime - slotStart).toNat / msPerMinute.toNat + 1
    acc ++ generateSlotsInWindow fuel slotStart window.endTime
      serviceDurationMinutes intervalMinutes) []

/-- Embeds `getBookableSlots` (availability.service.ts): discrete bookable start
times, with empty days filtered out. -/
def getBookableSlots (s : Store) (input : AvailableSlotsInput)
    (slotIntervalMinutes : Int) (now : Int) (cfg : BookingConfig) :
    ServiceResult (List DailyAvailability) :=
  match getAvailableSlots s input now cfg with
  | .failure e => .failure e
  | .success windows =>
    let serviceDuration :=
      input.serviceDurationMinutes.getD DEFAULT_BOOKING_CONFIG.defaultSlotDurationMinutes
    let bookableSlots := windows.map (fun day =>
      { date := day.date,
        slots := generateDiscreteSlots day.slots serviceDuration slotIntervalMinutes })
    .success (bookableSlots.filter (fun day => !day.slots.isEmpty))

/-! ## The operations as a transition system

`Step s t` holds when one invocation of a core operation (with the
configuration the routes wire in, and an arbitrary clock / gateway outcome)
takes the store from `s` to `t`.  `Reachable` closes the initial stores
(any catalogue of barbers, services, users and flags, but no appointments
yet) under these operations. -/

inductive Step : Store → Store → Prop where
  | createAppt (s : Store) (input : CreateAppointmentInput) (now : Int) :
      Step s (createAppointment s input now DEFAULT_BOOKING_CONFIG).2
  | cancel (s : Store) (id : Nat) (reason : Option Nat) (now : Int) (gatewayOk : Bool) :
      Step s (cancelAppointmentRoute s id reason now gatewayOk).2
  | noShow (s : Store) (id : Nat) (now : Int) :
      Step s (markNoShow s id now).2
  | complete (s : Store) (id : Nat) :
      Step s (completeAppointment s id).2
  | sweep (s : Store) (now : Int) :
      Step s (detectNoShows s now).2
  | payIntent (s : Store) (apptId intentId : Nat) :
      Step s (createPaymentIntentForAppointment s apptId intentId).2
  | webhook (s : Store) (intentId : Nat) :
      Step s (confirmPaymentWebhook s intentId)
  | resetFlags (s : Store) (customerId : Nat) :
      Step s (resetNoShowCount s customerId)

/-- An initial store: no appointments booked yet. -/
def InitStore (s : Store) : Prop := s.appointments = []

inductive Reachable : Store → Prop where
  | init (s : Store) : InitStore s → Reachable s
  | step {s t : Store} : Reachable s → Step s t → Reachable t

/-! ## The no-double-booking invariant -/

/-- Spelled out from the claim: the buffered ranges
`[startTime - buffer, endTime + buffer)` of the two appointments intersect. -/
def bufferedRangesIntersect (b : Int) (a1 a2 : Appointment) : Prop :=
  a1.startTime - b * msPerMinute < a2.endTime + b * msPerMinute ∧
  a2.startTime - b * msPerMinute < a1.endTime + b * msPerMinute

/-- C1's claimed invariant, following the spec's words: among appointments of
one barber whose status is BOOKED or CONFIRMED, no two have intersecting
buffered ranges (both ranges expanded by the default 10-minute buffer). -/
def claimedNoDoubleBooking (s : Store) : Prop :=
  s.appointments.Pairwise (fun a1 a2 =>
    a1.barberId = a2.barberId →
    (a1.status = .BOOKED ∨ a1.status = .CONFIRMED) →
    (a2.status = .BOOKED ∨ a2.status = .CONFIRMED) →
    ¬ bufferedRangesIntersect DEFAULT_BOOKING_CONFIG.bufferMinutes a1 a2)

instance (b : Int) (a1 a2 : Appointment) : Decidable (bufferedRangesIntersect b a1 a2) := by
  unfold bufferedRangesIntersect
  infer_instance

instance (s : Store) : Decidable (claimedNoDoubleBooking s) := by
  unfold claimedNoDoubleBooking
  infer_instance

/-- The separation the overlap check actually enforces between two
appointments: one raw range does not meet the other's one-sided buffered
range, i.e. the gap between the two is at least `bufferMinutes`. -/
def bookedSeparated (b : Int) (a1 a2 : Appointment) : Prop :=
  a1.barberId = a2.barberId → a1.status = .BOOKED → a2.status = .BOOKED →
  ¬ (a1.startTime < a2.endTime + b * msPerMinute ∧
     a2.startTime < a1.endTime + b * msPerMinute)

/-- The invariant the code maintains: any two BOOKED appointments of one
barber are separated by at least the default 10-minute buffer. -/
def bookedNoOverlap (s : Store) : Prop :=
  s.appointments.Pairwise (bookedSeparated DEFAULT_BOOKING_CONFIG.bufferMinutes)

/-- A row transformation that can only keep an appointment's identity fields
and move its status, never *into* BOOKED. -/
def statusSafe (f : Appointment → Appointment) : Prop :=
  ∀ a, (f a).barberId = a.barberId ∧ (f a).startTime = a.startTime ∧
       (f a).endTime = a.endTime ∧ ((f a).status = .BOOKED → a.status = .BOOKED)

theorem bookedSeparated_map {f : Appointment → Appointment} (hf : statusSafe f)
    {b : Int} (a1 a2 : Appointment) (h : bookedSeparated b a1 a2) :
    bookedSeparated b (f a1) (f a2) := by
  intro hbarb hs1 hs2
  obtain ⟨hb1, hst1, he1, hbo1⟩ := hf a1
  obtain ⟨hb2, hst2, he2, hbo2⟩ := hf a2
  rw [hst1, hst2, he1, he2]
  exact h (by rw [hb1, hb2] at hbarb; exact hbarb) (hbo1 hs1) (hbo2 hs2)

theorem pairwise_map_statusSafe {f : Appointment → Appointment} (hf : statusSafe f)
    {b : Int} {l : List Appointment}
    (h : l.Pairwise (bookedSeparated b)) :
    (l.map f).Pairwise (bookedSeparated b) :=
  List.Pairwise.map f (fun _ _ hab => bookedSeparated_map hf _ _ hab) h

/-- Setting one id's status to a non-BOOKED value is status-safe. -/
theorem statusSafe_setStatus (id : Nat) (st : AppointmentStatus)
    (hst : st ≠ .BOOKED) (r : Option Nat → Option Nat) :
    statusSafe (fun a => if a.id == id then
      { a with status := st, cancellationReason := r a.cancellationReason } else a) := by
  intro a
  by_cases h : a.id == id <;> simp [h, hst]

/-- Soundness of the overlap check: if the composed query+filter of
`createAppointment` came back empty, every BOOKED appointment of the barber
is at least `bufferMs` away from the requested `[startTime, endTime)`. -/
theorem overlap_check_sound {l : List Appointment} {barberId : Nat}
    {startTime endTime bufferMs : Int}
    (hempty : (List.filter (fun apt => doTimeRangesOverlap startTime endTime
        (apt.startTime - bufferMs) (apt.endTime + bufferMs))
      (List.filter (fun apt => apt.barberId == barberId &&
          apt.status == AppointmentStatus.BOOKED &&
          overlapQueryPrefilter apt (startTime - bufferMs) (endTime + bufferMs)) l)).isEmpty
      = true)
    {a : Appointment} (ha : a ∈ l) (hbarb : a.barberId = barberId)
    (hsA : a.status = .BOOKED) :
    ¬ (a.startTime < endTime + bufferMs ∧ startTime < a.endTime + bufferMs) := by
  intro hcon
  rw [List.isEmpty_iff, List.filter_eq_nil_iff] at hempty
  have hpre : overlapQueryPrefilter a (startTime - bufferMs) (endTime + bufferMs) = true := by
    simp only [overlapQueryPrefilter, Bool.or_eq_true, Bool.and_eq_true, decide_eq_true_eq]
    omega
  have hmem2 : a ∈ List.filter (fun apt => apt.barberId == barberId &&
      apt.status == AppointmentStatus.BOOKED &&
      overlapQueryPrefilter apt (startTime - bufferMs) (endTime + bufferMs)) l :=
    List.mem_filter.mpr ⟨ha, by simp [hbarb, hsA, hpre]⟩
  have hov := hempty a hmem2
  simp only [doTimeRangesOverlap, Bool.and_eq_true, decide_eq_true_eq, not_and, not_lt] at hov
  omega

theorem createAppointment_preserves (s : Store) (input : CreateAppointmentInput)
    (now : Int) (h : bookedNoOverlap s) :
    bookedNoOverlap (createAppointment s input now DEFAULT_BOOKING_CONFIG).2 := by
  simp only [createAppointment]
  split
  · exact h
  split
  · exact h
  split
  · exact h
  split
  · exact h
  split
  · exact h
  split
  · exact h
  split
  · exact h
  split
  · exact h
  next hempty =>
    unfold bookedNoOverlap at h ⊢
    simp only [List.pairwise_append, List.pairwise_cons, List.Pairwise.nil, List.mem_singleton]
    refine ⟨h, ⟨fun b hb => absurd hb (List.not_mem_nil b), trivial⟩, ?_⟩
    intro a ha b hb
    subst hb
    intro hbarb hsA _
    simp only [Bool.not_eq_true', Bool.not_eq_false] at hempty
    have := overlap_check_sound hempty ha hbarb hsA
    simpa [addMinutes, msPerMinute] using this

/-- Lemma: `bookedNoOverlap` only looks at the appointments table. -/
theorem bookedNoOverlap_of_eq {s t : Store} (h : t.appointments = s.appointments)
    (hs : bookedNoOverlap s) : bookedNoOverlap t := by
  unfold bookedNoOverlap at *
  rw [h]
  exact hs

theorem upsertNoShowFlag_appointments (s : Store) (c : Nat) (now : Int) :
    (upsertNoShowFlag s c now).1.appointments = s.appointments := by
  unfold upsertNoShowFlag
  split <;> rfl

theorem updatePayment_appointments (s : Store) (id : Nat) (f : Payment → Payment) :
    (updatePayment s id f).appointments = s.appointments := rfl

theorem bookedNoOverlap_updateAppointment {s : Store} {id : Nat}
    {f : Appointment → Appointment}
    (hf : ∀ a, (f a).barberId = a.barberId ∧ (f a).startTime = a.startTime ∧
      (f a).endTime = a.endTime ∧ ((f a).status = .BOOKED → a.status = .BOOKED))
    (h : bookedNoOverlap s) : bookedNoOverlap (updateAppointment s id f) := by
  unfold bookedNoOverlap updateAppointment at *
  apply pairwise_map_statusSafe _ h
  intro a
  by_cases hid : a.id == id <;> simp only [hid, ite_true, ite_false]
  · exact hf a
  · exact ⟨rfl, rfl, rfl, fun x => x⟩

theorem cancelRoute_preserves (s : Store) (id : Nat) (reason : Option Nat)
    (now : Int) (gw : Bool) (h : bookedNoOverlap s) :
    bookedNoOverlap (cancelAppointmentRoute s id reason now gw).2 := by
  simp only [cancelAppointmentRoute]
  split
  · exact h
  split
  · exact h
  split
  · exact h
  split
  · exact h
  have h1 : bookedNoOverlap (updateAppointment s id (fun a =>
      { a with status := .CANCELLED, cancellationReason := reason })) := by
    apply bookedNoOverlap_updateAppointment _ h
    intro a
    exact ⟨rfl, rfl, rfl, fun hx => absurd hx (by simp)⟩
  split
  · exact bookedNoOverlap_of_eq (updatePayment_appointments ..) h1
  · exact h1

theorem markNoShow_preserves (s : Store) (id : Nat) (now : Int)
    (h : bookedNoOverlap s) : bookedNoOverlap (markNoShow s id now).2 := by
  simp only [markNoShow]
  split
  · exact h
  split
  · exact h
  split
  · exact h
  apply bookedNoOverlap_of_eq (upsertNoShowFlag_appointments ..)
  apply bookedNoOverlap_updateAppointment _ h
  intro a
  exact ⟨rfl, rfl, rfl, fun hx => absurd hx (by simp)⟩

theorem completeAppointment_preserves (s : Store) (id : Nat)
    (h : bookedNoOverlap s) : bookedNoOverlap (completeAppointment s id).2 := by
  simp only [completeAppointment]
  split
  · exact h
  split
  · exact h
  apply bookedNoOverlap_updateAppointment _ h
  intro a
  exact ⟨rfl, rfl, rfl, fun hx => absurd hx (by simp)⟩

theorem sweepOne_preserves (now : Int) (acc : Store × List NoShowResult)
    (e : Appointment) (h : bookedNoOverlap acc.1) :
    bookedNoOverlap (sweepOne now acc e).1 := by
  simp only [sweepOne]
  apply bookedNoOverlap_of_eq (upsertNoShowFlag_appointments ..)
  apply bookedNoOverlap_updateAppointment _ h
  intro a
  exact ⟨rfl, rfl, rfl, fun hx => absurd hx (by simp)⟩

theorem sweepFold_preserves (now : Int) (l : List Appointment) :
    ∀ acc : Store × List NoShowResult, bookedNoOverlap acc.1 →
    bookedNoOverlap (l.foldl (sweepOne now) acc).1 := by
  induction l with
  | nil => exact fun acc h => h
  | cons e rest ih =>
      intro acc h
      simp only [List.foldl_cons]
      exact ih _ (sweepOne_preserves now acc e h)

theorem detectNoShows_preserves (s : Store) (now : Int)
    (h : bookedNoOverlap s) : bookedNoOverlap (detectNoShows s now).2 := by
  simp only [detectNoShows]
  exact sweepFold_preserves now _ (s, []) h

theorem payIntent_preserves (s : Store) (apptId intentId : Nat)
    (h : bookedNoOverlap s) :
    bookedNoOverlap (createPaymentIntentForAppointment s apptId intentId).2 := by
  simp only [createPaymentIntentForAppointment]
  split
  · exact h
  split
  · exact h
  split
  · exact h
  · exact bookedNoOverlap_of_eq rfl h

theorem webhook_preserves (s : Store) (intentId : Nat)
    (h : bookedNoOverlap s) : bookedNoOverlap (confirmPaymentWebhook s intentId) := by
  simp only [confirmPaymentWebhook]
  split
  · exact h
  split
  · exact h
  split
  · apply bookedNoOverlap_updateAppointment _
      (bookedNoOverlap_of_eq (updatePayment_appointments ..) h)
    intro a
    exact ⟨rfl, rfl, rfl, fun hx => absurd hx (by simp)⟩
  · exact bookedNoOverlap_of_eq (updatePayment_appointments ..) h

theorem resetFlags_preserves (s : Store) (customerId : Nat)
    (h : bookedNoOverlap s) : bookedNoOverlap (resetNoShowCount s customerId) := by
  simp only [resetNoShowCount]
  split
  · exact bookedNoOverlap_of_eq rfl h
  · exact h

theorem step_preserves {s t : Store} (hstep : Step s t) (h : bookedNoOverlap s) :
    bookedNoOverlap t := by
  cases hstep with
  | createAppt input now => exact createAppointment_preserves s input now h
  | cancel id reason now gw => exact cancelRoute_preserves s id reason now gw h
  | noShow id now => exact markNoShow_preserves s id now h
  | complete id => exact completeAppointment_preserves s id h
  | sweep now => exact detectNoShows_preserves s now h
  | payIntent a i => exact payIntent_preserves s a i h
  | webhook i => exact webhook_preserves s i h
  | resetFlags c => exact resetFlags_preserves s c h

theorem reachable_bookedNoOverlap {s : Store} (h : Reachable s) : bookedNoOverlap s := by
  induction h with
  | init s hs => unfold bookedNoOverlap; rw [hs]; exact List.Pairwise.nil
  | step _ hstep ih => exact step_preserves hstep ih

/-! ## A concrete demonstration store

One active barber (id 0) at shop 0, open Mondays 09:00–17:00 by a recurring
rule, one 30-minute service (id 0) offered shop-wide, one customer (id 0).
`demoMonday` is the midnight starting a Monday (day 4 of the epoch,
1970-01-05). -/

def demoRule : Availability :=
  { isException := false, dayOfWeek := 1, date := none,
    startTime := some ⟨9, 0⟩, endTime := some ⟨17, 0⟩ }

def demoMonday : Int := 4 * msPerDay

def demoStore : Store :=
  { barbers := [{ id := 0, shopId := 0, active := true, availability := [demoRule] }],
    services := [{ id := 0, shopId := 0, barberId := none, durationMinutes := 30 }],
    users := [0],
    appointments := [], payments := [], noShowFlags := [],
    nextAppointmentId := 0, nextPaymentId := 0 }

/-- Book 10:00–10:30 on the demo Monday. -/
def c1input1 : CreateAppointmentInput := ⟨0, 0, 0, demoMonday + 10 * msPerHour⟩

/-- Book 10:40–11:10 on the demo Monday: exactly the 10-minute buffer after
the first appointment ends. -/
def c1input2 : CreateAppointmentInput :=
  ⟨0, 0, 0, demoMonday + 10 * msPerHour + 40 * msPerMinute⟩

def c1s1 : Store := (createAppointment demoStore c1input1 demoMonday DEFAULT_BOOKING_CONFIG).2

def c1s2 : Store := (createAppointment c1s1 c1input2 demoMonday DEFAULT_BOOKING_CONFIG).2

/-- After paying for and confirming the 10:00 appointment. -/
def c1paid : Store := confirmPaymentWebhook (createPaymentIntentForAppointment c1s1 0 7).2 7

/-- Booking the very same 10:00–10:30 slot again once the first appointment
is CONFIRMED. -/
def c1s3 : Store := (createAppointment c1paid c1input1 demoMonday DEFAULT_BOOKING_CONFIG).2

theorem c1s2_reachable : Reachable c1s2 :=
  Reachable.step
    (Reachable.step (Reachable.init demoStore rfl)
      (Step.createAppt demoStore c1input1 demoMonday))
    (Step.createAppt c1s1 c1input2 demoMonday)

theorem c1s3_reachable : Reachable c1s3 :=
  Reachable.step
    (Reachable.step
      (Reachable.step
        (Reachable.step (Reachable.init demoStore rfl)
          (Step.createAppt demoStore c1input1 demoMonday))
        (Step.payIntent c1s1 0 7))
      (Step.webhook (createPaymentIntentForAppointment c1s1 0 7).2 7))
    (Step.createAppt c1paid c1input1 demoMonday)

/-- Claim C1, counterexample:  The claimed invariant — no two appointments of
one barber in status BOOKED or CONFIRMED with intersecting two-sided
buffered ranges `[startTime-buffer, endTime+buffer)` — fails on reachable
states, in two independent ways.  (1) `c1s2` is reached by two successful
`createAppointment` calls for 10:00–10:30 and 10:40–11:10: both are BOOKED,
and their buffered ranges [09:50, 10:40) and [10:30, 11:20) intersect,
because the code's overlap check only buffers the *existing* appointment,
enforcing a 10-minute gap rather than the 20 minutes two-sided buffering
would demand.  (2) `c1s3` is reached by booking 10:00–10:30, confirming it
through the payment webhook, and booking the *identical* slot again: the
overlap query filters on `status: BOOKED` only, so the CONFIRMED appointment
is invisible to it, and the store ends with a CONFIRMED and a BOOKED
appointment occupying the very same range. -/
theorem C1_counterexample :
    (Reachable c1s2 ∧ ¬ claimedNoDoubleBooking c1s2) ∧
    (Reachable c1s3 ∧ ¬ claimedNoDoubleBooking c1s3) ∧
    (c1s3.appointments.map (fun a => (a.status, a.startTime, a.endTime)) =
      [(.CONFIRMED, demoMonday + 10 * msPerHour, demoMonday + 10 * msPerHour + 30 * msPerMinute),
       (.BOOKED, demoMonday + 10 * msPerHour, demoMonday + 10 * msPerHour + 30 * msPerMinute)]) :=
  ⟨⟨c1s2_reachable, by decide⟩, ⟨c1s3_reachable, by decide⟩, by decide⟩

/-- Claim C1, amended:  What the code actually maintains: in every reachable
store state, any two distinct appointments of the same barber that are
*both* in status BOOKED are separated by at least the default 10-minute
buffer — equivalently, neither raw range `[startTime, endTime)` meets the
other appointment's one-sided buffered range `[startTime-10min,
endTime+10min)`.  Every operation preserves this; `createAppointment`'s
overlap check (which queries existing appointments with status BOOKED and
rejects with OVERLAPPING_APPOINTMENT when the requested `[startTime,
endTime)` meets an existing buffered range) establishes it for the inserted
row.  CONFIRMED appointments are not covered: the overlap query filters on
BOOKED only, and the claimed two-sided buffering is not what the check
computes. -/
theorem C1_amended (s : Store) (h : Reachable s) : bookedNoOverlap s :=
  reachable_bookedNoOverlap h

theorem C1_amended_witness : Reachable c1s2 ∧ bookedNoOverlap c1s2 :=
  ⟨c1s2_reachable, C1_amended c1s2 c1s2_reachable⟩

/-- Claim C2:  Refund-then-commit ordering of the cancel route: for a
cancellation of an appointment with a PAID payment made at least
REFUND_CUTOFF_HOURS (24) before `startTime`, the gateway refund call is
issued strictly before the database transaction; when the gateway call
fails the route answers STRIPE_ERROR and the store is returned untouched
(in particular neither the appointment status nor the payment status
changes), and when it succeeds the single committed transaction sets the
appointment CANCELLED and the payment REFUNDED — so no state with a
CANCELLED appointment and no successful refund is ever produced. -/
theorem C2_refund_before_commit (s : Store) (id : Nat) (reason : Option Nat)
    (now : Int) (appt : Appointment) (p : Payment)
    (hfind : findAppointment s id = some appt)
    (hterm : isTerminalStatus appt.status = false)
    (hpay : findPaymentForAppointment s id = some p)
    (hpaid : p.status = .PAID)
    (hcutoff : appt.startTime - now ≥ REFUND_CUTOFF_HOURS * msPerHour) :
    cancelAppointmentRoute s id reason now false = (.failure .STRIPE_ERROR, s) ∧
    cancelAppointmentRoute s id reason now true =
      (.success (),
       updatePayment
         (updateAppointment s id (fun a =>
           { a with status := .CANCELLED, cancellationReason := reason }))
         p.id (fun q => { q with status := .REFUNDED })) := by
  have hnotafter : ¬ (appt.startTime < now) := by
    simp only [REFUND_CUTOFF_HOURS, msPerHour] at hcutoff
    omega
  have hhours : differenceInHoursTrunc appt.startTime now ≥ REFUND_CUTOFF_HOURS := by
    unfold differenceInHoursTrunc REFUND_CUTOFF_HOURS msPerHour at *
    rw [Int.tdiv_eq_ediv (by omega) (by omega)]
    omega
  constructor <;>
  simp [cancelAppointmentRoute, hfind, hterm, hpay, hpaid, hnotafter, hhours]

/-- A CONFIRMED 10:00–10:30 appointment on the demo Monday with a PAID
deposit, cancelled 48 hours ahead. -/
def c2appt : Appointment :=
  { id := 0, barberId := 0, customerId := 0, serviceId := 0,
    startTime := demoMonday + 10 * msPerHour,
    endTime := demoMonday + 10 * msPerHour + 30 * msPerMinute,
    status := .CONFIRMED, cancellationReason := none }

def c2payment : Payment :=
  { id := 0, stripePaymentIntentId := 7, status := .PAID,
    customerId := 0, appointmentId := some 0, amountCents := 500 }

def c2store : Store := { demoStore with appointments := [c2appt], payments := [c2payment] }

theorem C2_refund_before_commit_witness :
    cancelAppointmentRoute c2store 0 none (demoMonday - 38 * msPerHour) false =
      (.failure .STRIPE_ERROR, c2store) ∧
    cancelAppointmentRoute c2store 0 none (demoMonday - 38 * msPerHour) true =
      (.success (),
       updatePayment
         (updateAppointment c2store 0 (fun a =>
           { a with status := .CANCELLED, cancellationReason := none }))
         0 (fun q => { q with status := .REFUNDED })) :=
  C2_refund_before_commit c2store 0 none (demoMonday - 38 * msPerHour) c2appt c2payment
    (by decide) (by decide) (by decide) (by decide) (by decide)

theorem exceptionsForDate_filter (rules : List Availability) (d : Int) :
    exceptionsForDate (rules.filter (fun a => a.isException)) d = exceptionsForDate rules d := by
  unfold exceptionsForDate
  rw [List.filter_filter]
  apply List.filter_congr
  intro a _
  cases h : a.isException <;> simp [h]

theorem weeklyForDay_filter (rules : List Availability) (dow : Int) :
    weeklyForDay (rules.filter (fun a => a.isException)) dow = [] := by
  unfold weeklyForDay
  rw [List.filter_filter, List.filter_eq_nil_iff]
  intro a _
  cases h : a.isException <;> simp [h]

theorem exceptionsForDate_filter_weekly (rules : List Availability) (d : Int) :
    exceptionsForDate (rules.filter (fun a => !a.isException)) d = [] := by
  unfold exceptionsForDate
  rw [List.filter_filter, List.filter_eq_nil_iff]
  intro a _
  cases h : a.isException <;> simp [h]

theorem weeklyForDay_filter_weekly (rules : List Availability) (dow : Int) :
    weeklyForDay (rules.filter (fun a => !a.isException)) dow = weeklyForDay rules dow := by
  unfold weeklyForDay
  rw [List.filter_filter]
  apply List.filter_congr
  intro a _
  cases h : a.isException <;> simp [h]

/-- Claim C3:  Exception rules completely replace recurring rules, in both the
slot computation and the booking-time availability check.  For a date with
at least one exception: (1) `calculateDaySlotsForDate` gives the same
result when every recurring rule is deleted, and (2) `checkBarberAvailability`
likewise — so recurring rules are never unioned in; (3)–(4) when no
exception for the date carries both a start and an end time (a "day off"
exception), the date yields zero slots and the availability check says
unavailable; and (5) a date with no exception computes its slots from the
recurring rules alone (deleting all exception rows changes nothing there),
so other dates with the same day of week keep their recurring windows. -/
theorem C3_exception_overrides (rules : List Availability) (date : Int)
    (appts : List Appointment) (dur buf now : Int) (rs re : Int) (date2 : Int)
    (hexc : exceptionsForDate rules (startOfDay date) ≠ [])
    (hexc2 : exceptionsForDate rules (startOfDay rs) ≠ [])
    (hno : exceptionsForDate rules (startOfDay date2) = []) :
    (calculateDaySlotsForDate date rules appts dur buf now =
     calculateDaySlotsForDate date (rules.filter (fun a => a.isException)) appts dur buf now) ∧
    (checkBarberAvailability rules rs re =
     checkBarberAvailability (rules.filter (fun a => a.isException)) rs re) ∧
    (hasValidTimeSlots (exceptionsForDate rules (startOfDay date)) = false →
      calculateDaySlotsForDate date rules appts dur buf now = []) ∧
    (hasValidTimeSlots (exceptionsForDate rules (startOfDay rs)) = false →
      checkBarberAvailability rules rs re = false) ∧
    (calculateDaySlotsForDate date2 rules appts dur buf now =
     calculateDaySlotsForDate date2 (rules.filter (fun a => !a.isException)) appts dur buf now) := by
  have hne : (exceptionsForDate rules (startOfDay date)).isEmpty = false := by
    rw [List.isEmpty_eq_false_iff_exists_mem]
    exact List.exists_mem_of_ne_nil _ hexc
  have hne2 : (exceptionsForDate rules (startOfDay rs)).isEmpty = false := by
    rw [List.isEmpty_eq_false_iff_exists_mem]
    exact List.exists_mem_of_ne_nil _ hexc2
  refine ⟨?_, ?_, ?_, ?_, ?_⟩
  · simp only [calculateDaySlotsForDate]
    rw [exceptionsForDate_filter, weeklyForDay_filter, hne]
    simp
  · simp only [checkBarberAvailability]
    rw [exceptionsForDate_filter, weeklyForDay_filter, hne2]
    simp
  · intro hoff
    simp only [calculateDaySlotsForDate]
    rw [hne, hoff]
    simp
  · intro hoff
    simp only [checkBarberAvailability]
    rw [hne2, hoff]
    simp
  · simp only [calculateDaySlotsForDate]
    rw [exceptionsForDate_filter_weekly, weeklyForDay_filter_weekly, hno]

/-- The P2 scenario's rules: a recurring Monday 09:00–17:00 rule together
with a "day off" exception (no time range) dated on the demo Monday. -/
def c3rules : List Availability :=
  [demoRule,
   { isException := true, dayOfWeek := 1, date := some demoMonday,
     startTime := none, endTime := none }]

def c3nextMonday : Int := demoMonday + 7 * msPerDay

theorem C3_exception_overrides_witness :
    ((calculateDaySlotsForDate demoMonday c3rules [] 30 10 demoMonday =
      calculateDaySlotsForDate demoMonday (c3rules.filter (fun a => a.isException)) [] 30 10 demoMonday) ∧
     (checkBarberAvailability c3rules (demoMonday + 10 * msPerHour)
        (demoMonday + 10 * msPerHour + 30 * msPerMinute) =
      checkBarberAvailability (c3rules.filter (fun a => a.isException))
        (demoMonday + 10 * msPerHour) (demoMonday + 10 * msPerHour + 30 * msPerMinute)) ∧
     (hasValidTimeSlots (exceptionsForDate c3rules (startOfDay demoMonday)) = false →
       calculateDaySlotsForDate demoMonday c3rules [] 30 10 demoMonday = []) ∧
     (hasValidTimeSlots (exceptionsForDate c3rules (startOfDay (demoMonday + 10 * msPerHour))) = false →
       checkBarberAvailability c3rules (demoMonday + 10 * msPerHour)
         (demoMonday + 10 * msPerHour + 30 * msPerMinute) = false) ∧
     (calculateDaySlotsForDate c3nextMonday c3rules [] 30 10 demoMonday =
      calculateDaySlotsForDate c3nextMonday (c3rules.filter (fun a => !a.isException)) [] 30 10 demoMonday)) ∧
    calculateDaySlotsForDate demoMonday c3rules [] 30 10 demoMonday = [] ∧
    calculateDaySlotsForDate c3nextMonday c3rules [] 30 10 demoMonday ≠ [] :=
  ⟨C3_exception_overrides c3rules demoMonday [] 30 10 demoMonday
      (demoMonday + 10 * msPerHour) (demoMonday + 10 * msPerHour + 30 * msPerMinute)
      c3nextMonday (by decide) (by decide) (by decide),
   by decide, by decide⟩

theorem sweepOne_appointments (now : Int) (acc : Store × List NoShowResult)
    (e : Appointment) :
    (sweepOne now acc e).1.appointments =
      acc.1.appointments.map (fun a =>
        if a.id == e.id then { a with status := .NO_SHOW } else a) := by
  simp only [sweepOne]
  rw [upsertNoShowFlag_appointments]
  rfl

theorem sweepFold_appointments (now : Int) (es : List Appointment) :
    ∀ acc : Store × List NoShowResult,
    ((es.foldl (sweepOne now) acc).1).appointments =
      acc.1.appointments.map (fun a =>
        if es.any (fun e => a.id == e.id) then { a with status := .NO_SHOW } else a) := by
  induction es with
  | nil =>
      intro acc
      simp
  | cons e rest ih =>
      intro acc
      simp only [List.foldl_cons]
      rw [ih, sweepOne_appointments, List.map_map]
      apply List.map_congr_left
      intro a _
      by_cases h : (a.id == e.id) = true
      · simp only [Function.comp_apply, List.any_cons, h, Bool.true_or, if_true]
        split <;> rfl
      · have h2 : ¬ a.id = e.id := by simpa using h
        simp [Function.comp_apply, List.any_cons, h2]

theorem insertByStartTime_perm (a : Appointment) (l : List Appointment) :
    (insertByStartTime a l).Perm (a :: l) := by
  induction l with
  | nil => exact List.Perm.refl _
  | cons b rest ih =>
      unfold insertByStartTime
      split
      · exact List.Perm.refl _
      · exact (List.Perm.cons b ih).trans (List.Perm.swap a b rest)

theorem sortByStartTime_perm (l : List Appointment) :
    (sortByStartTime l).Perm l := by
  induction l with
  | nil => exact List.Perm.refl _
  | cons a rest ih =>
      unfold sortByStartTime
      simp only [List.foldr_cons]
      exact (insertByStartTime_perm a _).trans (List.Perm.cons a ih)

theorem mem_sortByStartTime {a : Appointment} {l : List Appointment} :
    a ∈ sortByStartTime l ↔ a ∈ l :=
  (sortByStartTime_perm l).mem_iff

theorem sweepFold_details_length (now : Int) (es : List Appointment) :
    ∀ acc : Store × List NoShowResult,
    ((es.foldl (sweepOne now) acc).2).length = acc.2.length + es.length := by
  induction es with
  | nil => intro acc; simp
  | cons e rest ih =>
      intro acc
      simp only [List.foldl_cons]
      rw [ih]
      simp [sweepOne]
      omega

theorem detectNoShows_of_no_eligible (t : Store) (now : Int)
    (h : t.appointments.filter (sweepEligible now) = []) :
    detectNoShows t now = ({ scanned := 0, markedAsNoShow := 0, details := [] }, t) := by
  simp only [detectNoShows, h]
  rfl

/-- Claim C4:  The no-show sweep is idempotent.  `detectNoShows` scans exactly
the appointments whose status is CONFIRMED and whose `startTime` lies more
than GRACE_PERIOD_MINUTES (10) in the past, marks each of them (one detail
row, and one flag increment, per marked appointment, so `markedAsNoShow =
scanned`), and running the sweep again immediately on the resulting store
scans and marks zero appointments and returns the store — in particular
every NoShowFlag count — completely unchanged. -/
theorem C4_sweep_idempotent (s : Store) (now : Int) :
    (detectNoShows s now).1.scanned = (s.appointments.filter (sweepEligible now)).length ∧
    (detectNoShows s now).1.markedAsNoShow = (detectNoShows s now).1.scanned ∧
    detectNoShows (detectNoShows s now).2 now =
      ({ scanned := 0, markedAsNoShow := 0, details := [] }, (detectNoShows s now).2) := by
  refine ⟨?_, ?_, ?_⟩
  · simp only [detectNoShows]
    exact (sortByStartTime_perm _).length_eq
  · simp only [detectNoShows]
    rw [sweepFold_details_length]
    simp
  · have happts := sweepFold_appointments now
      (sortByStartTime (s.appointments.filter (sweepEligible now))) (s, [])
    have hfilter : ((detectNoShows s now).2.appointments.filter (sweepEligible now)) = [] := by
      rw [List.filter_eq_nil_iff]
      intro b hb
      have hb' : b ∈ (s.appointments.map (fun a =>
          if (sortByStartTime (s.appointments.filter (sweepEligible now))).any
              (fun e => a.id == e.id) then { a with status := .NO_SHOW } else a)) := by
        simpa only [detectNoShows, happts] using hb
      obtain ⟨a, ha, rfl⟩ := List.mem_map.mp hb'
      by_cases hc : ((sortByStartTime (s.appointments.filter (sweepEligible now))).any
          (fun e => a.id == e.id)) = true
      · rw [if_pos hc]
        simp [sweepEligible]
      · have hc' : ((sortByStartTime (s.appointments.filter (sweepEligible now))).any
            (fun e => a.id == e.id)) = false := by simpa using hc
        rw [hc']
        simp only [Bool.false_eq_true, if_false]
        intro helig
        apply hc
        rw [List.any_eq_true]
        refine ⟨a, ?_, by simp⟩
        rw [mem_sortByStartTime]
        exact List.mem_filter.mpr ⟨ha, helig⟩
    exact detectNoShows_of_no_eligible _ now hfilter

/-- A CONFIRMED appointment 10:00–10:30 on the demo Monday, as left by a
successful payment. -/
def c5appt : Appointment :=
  { id := 0, barberId := 0, customerId := 0, serviceId := 0,
    startTime := demoMonday + 10 * msPerHour,
    endTime := demoMonday + 10 * msPerHour + 30 * msPerMinute,
    status := .CONFIRMED, cancellationReason := none }

def c5store : Store := { demoStore with appointments := [c5appt] }

/-- Claim C5:  The claim (and the repository's own locked Phase 7.1 contract:
`CONFIRMED → COMPLETED` via the complete endpoint, `CONFIRMED → NO_SHOW` via
the no-show endpoint) says the explicit staff transitions are permitted from
CONFIRMED.  The code rejects them: both `completeAppointment` and
`markNoShow` require `status === BOOKED`, so on a CONFIRMED appointment —
even with `now` past `startTime` for the no-show call — each returns the
failure APPOINTMENT_ALREADY_COMPLETED and leaves the store unchanged. -/
theorem C5_confirmed_transitions_rejected :
    completeAppointment c5store 0 =
      (.failure .APPOINTMENT_ALREADY_COMPLETED, c5store) ∧
    markNoShow c5store 0 (demoMonday + 11 * msPerHour) =
      (.failure .APPOINTMENT_ALREADY_COMPLETED, c5store) ∧
    (demoMonday + 11 * msPerHour ≥ c5appt.startTime) := by
  refine ⟨by decide, by decide, by decide⟩

/-- A service scoped to a *different* barber (id 5) at a *different* shop
(id 9): the demo barber 0 at shop 0 should not be able to host it. -/
def c6service : Service := { id := 0, shopId := 9, barberId := some 5, durationMinutes := 30 }

def c6store : Store := { demoStore with services := [c6service] }

/-- Claim C6, counterexample:  The claim says `createAppointment` rejects a
service scoped to a different barber (and otherwise requires the service to
belong to the target barber's shop) and creates no appointment for such
input.  On the code, booking barber 0 with a service whose `barberId` is 5
and whose `shopId` is 9 — while barber 0 belongs to shop 0 — succeeds and
inserts the appointment: the service lookup checks existence only. -/
theorem C6_counterexample :
    (createAppointment c6store c1input1 demoMonday DEFAULT_BOOKING_CONFIG).1 =
      .success { id := 0, barberId := 0, customerId := 0, serviceId := 0,
                 startTime := demoMonday + 10 * msPerHour,
                 endTime := demoMonday + 10 * msPerHour + 30 * msPerMinute,
                 status := .BOOKED, cancellationReason := none } ∧
    (createAppointment c6store c1input1 demoMonday DEFAULT_BOOKING_CONFIG).2.appointments.length = 1 ∧
    c6service.barberId = some 5 ∧ (findBarber c6store 0).map (fun b => b.shopId) = some 0 ∧
    c6service.shopId = 9 :=
  ⟨by decide, by decide, by decide, by decide, by decide⟩

/-- Claim C6, amended:  `createAppointment` fails with SERVICE_NOT_FOUND, and
creates nothing, exactly when no service with the given id exists (here under
the earlier checks passing: future start, unblocked customer, active barber).
No barber- or shop-scope validation is performed on a found service: an
existing service scoped to a different barber and shop is accepted and the
appointment is created (second conjunct, the explicit scenario above). -/
theorem C6_amended (s : Store) (input : CreateAppointmentInput) (now : Int)
    (barber : Barber)
    (hpast : now < input.startTime)
    (hblocked : isCustomerBlocked s input.customerId 3 = false)
    (hbarber : findBarber s input.barberId = some barber)
    (hactive : barber.active = true)
    (hservice : findService s input.serviceId = none) :
    createAppointment s input now DEFAULT_BOOKING_CONFIG = (.failure .SERVICE_NOT_FOUND, s) ∧
    ((createAppointment c6store c1input1 demoMonday DEFAULT_BOOKING_CONFIG).1 ≠
        .failure .SERVICE_NOT_FOUND ∧
     (createAppointment c6store c1input1 demoMonday DEFAULT_BOOKING_CONFIG).2.appointments ≠ []) := by
  have h1 : ¬ input.startTime ≤ now := not_le.mpr hpast
  refine ⟨?_, by decide, by decide⟩
  simp [createAppointment, h1, hblocked, hbarber, hactive, hservice]

def c6emptyServices : Store := { demoStore with services := [] }

theorem C6_amended_witness :
    (createAppointment c6emptyServices c1input1 demoMonday DEFAULT_BOOKING_CONFIG =
      (.failure .SERVICE_NOT_FOUND, c6emptyServices)) ∧
    ((createAppointment c6store c1input1 demoMonday DEFAULT_BOOKING_CONFIG).1 ≠
        .failure .SERVICE_NOT_FOUND ∧
     (createAppointment c6store c1input1 demoMonday DEFAULT_BOOKING_CONFIG).2.appointments ≠ []) :=
  C6_amended c6emptyServices c1input1 demoMonday
    { id := 0, shopId := 0, active := true, availability := [demoRule] }
    (by decide) (by decide) (by decide) (by decide) (by decide)

def c7appt : Appointment :=
  { id := 0, barberId := 0, customerId := 0, serviceId := 0,
    startTime := demoMonday + 10 * msPerHour,
    endTime := demoMonday + 10 * msPerHour + 30 * msPerMinute,
    status := .BOOKED, cancellationReason := none }

def c7store : Store := { demoStore with appointments := [c7appt] }

def c7cancelled : Store :=
  { demoStore with appointments := [{ c7appt with status := .CANCELLED }] }

/-- Claim C7, counterexample:  The claim says the cancel route rejects with
CANCELLATION_WINDOW_PASSED for every call with `now >= startTime`, including
the boundary `now == startTime` exactly.  The route uses the strict
`isAfter(now, startTime)`, so at `now == startTime` it does not reject: the
cancellation succeeds and the appointment becomes CANCELLED. -/
theorem C7_counterexample :
    (cancelAppointmentRoute c7store 0 none (demoMonday + 10 * msPerHour) true).1 ≠
      .failure .CANCELLATION_WINDOW_PASSED ∧
    (cancelAppointmentRoute c7store 0 none (demoMonday + 10 * msPerHour) true).1 = .success () ∧
    (findAppointment (cancelAppointmentRoute c7store 0 none (demoMonday + 10 * msPerHour) true).2 0).map
        (fun a => a.status) = some .CANCELLED :=
  ⟨by decide, by decide, by decide⟩

/-- Claim C7, amended:  The cancel route rejects with
INVALID_APPOINTMENT_STATE when the appointment is already terminal
(CANCELLED, COMPLETED or NO_SHOW), and rejects with
CANCELLATION_WINDOW_PASSED when `now > startTime` strictly (at
`now == startTime` exactly the cancellation proceeds instead); in both
failure cases the store — in particular the appointment — is returned
unchanged. -/
theorem C7_amended (s : Store) (id : Nat) (reason : Option Nat) (now : Int) (gw : Bool)
    (appt : Appointment) (hfind : findAppointment s id = some appt) :
    (isTerminalStatus appt.status = true →
      cancelAppointmentRoute s id reason now gw = (.failure .INVALID_APPOINTMENT_STATE, s)) ∧
    (isTerminalStatus appt.status = false → appt.startTime < now →
      cancelAppointmentRoute s id reason now gw = (.failure .CANCELLATION_WINDOW_PASSED, s)) := by
  constructor
  · intro hterm
    simp [cancelAppointmentRoute, hfind, hterm]
  · intro hterm hlate
    simp [cancelAppointmentRoute, hfind, hterm, hlate]

theorem C7_amended_witness :
    cancelAppointmentRoute c7cancelled 0 none demoMonday true =
      (.failure .INVALID_APPOINTMENT_STATE, c7cancelled) ∧
    cancelAppointmentRoute c7store 0 none (demoMonday + 10 * msPerHour + 1) true =
      (.failure .CANCELLATION_WINDOW_PASSED, c7store) :=
  ⟨(C7_amended c7cancelled 0 none demoMonday true { c7appt with status := .CANCELLED }
      (by decide)).1 (by decide),
   (C7_amended c7store 0 none (demoMonday + 10 * msPerHour + 1) true c7appt
      (by decide)).2 (by decide) (by decide)⟩

/-- The scenario's existing BOOKED appointment 10:00–10:30 on the demo
Monday (barber open 09:00–17:00, buffer 10, interval 15, service 30). -/
def c8appt : Appointment :=
  { id := 0, barberId := 0, customerId := 0, serviceId := 0,
    startTime := demoMonday + 10 * msPerHour,
    endTime := demoMonday + 10 * msPerHour + 30 * msPerMinute,
    status := .BOOKED, cancellationReason := none }

/-- The discrete bookable slots the code computes for the scenario
(evaluated with `now` at that Monday's midnight, so no past-clipping). -/
def c8slots : List TimeSlot :=
  generateDiscreteSlots
    (calculateDaySlotsForDate demoMonday [demoRule] [c8appt] 30 10 demoMonday)
    30 15

/-- Claim C8, counterexample:  The claim's slot list includes the start 09:30.
The code excludes it: a 30-minute service starting 09:30 would run until
10:00, inside the blocked buffered range [09:50, 10:40) of the existing
appointment, so the free window before the appointment is [09:00, 09:50)
and its last quantized start is 09:15. -/
theorem C8_counterexample :
    (¬ ∃ slot ∈ c8slots, slot.startTime = demoMonday + 9 * msPerHour + 30 * msPerMinute) ∧
    (∃ slot ∈ c8slots, slot.startTime = demoMonday + 9 * msPerHour + 15 * msPerMinute) :=
  ⟨by decide, by decide⟩

/-- Claim C8, amended:  In the scenario (Monday 09:00–17:00, buffer 10,
interval 15, duration 30, one BOOKED appointment 10:00–10:30) the computed
bookable starts are exactly 09:00, 09:15 and 10:45, 11:00, …, 16:30 —
every candidate start in (09:20, 10:40), i.e. the grid points 09:30
through 10:30, is excluded, because a start must leave room for the
30-minute service before the blocked range [09:50, 10:40) begins.  Each
slot's end is its start plus the 30-minute duration. -/
theorem C8_amended :
    c8slots.map (fun s => (s.startTime - demoMonday) / msPerMinute) =
      [540, 555,
       645, 660, 675, 690, 705, 720, 735, 750, 765, 780, 795, 810,
       825, 840, 855, 870, 885, 900, 915, 930, 945, 960, 975, 990] ∧
    c8slots.all (fun s => s.endTime == s.startTime + 30 * msPerMinute) = true :=
  ⟨by decide, by decide⟩

theorem find?_reset_aux (l : List NoShowFlag) (cid : Nat) :
    (l.map (fun g => if g.customerId == cid then
        { g with count := 0, lastFlaggedAt := none } else g)).find?
          (fun f => f.customerId == cid) =
      (l.find? (fun f => f.customerId == cid)).map
        (fun g => { g with count := 0, lastFlaggedAt := none }) := by
  induction l with
  | nil => rfl
  | cons a rest ih =>
      simp only [List.map_cons, List.find?_cons]
      by_cases h : (a.customerId == cid) = true
      · have hp : a.customerId = cid := by simpa using h
        simp [hp]
      · have h' : (a.customerId == cid) = false := by simpa using h
        rw [if_neg h]
        simp only [List.find?_cons, h']
        exact ih

theorem getCount_reset (s : Store) (cid : Nat) :
    getCustomerNoShowCount (resetNoShowCount s cid) cid = 0 := by
  unfold resetNoShowCount
  cases hf : s.noShowFlags.find? (fun f => f.customerId == cid) with
  | none => simp [getCustomerNoShowCount, hf]
  | some f =>
      simp only [getCustomerNoShowCount, find?_reset_aux, hf]
      rfl

def c9blocked : Store :=
  { demoStore with noShowFlags := [{ customerId := 0, count := 3, lastFlaggedAt := some 0 }] }

/-- Claim C9:  The blocking policy is the pure threshold predicate
`count >= maxNoShowCount` with default threshold 3, a customer without a
NoShowFlag row counts as 0 and is never blocked, and `createAppointment`
consults it before any barber/service/availability/overlap validation: for
a future `startTime` (the in-past guard is the only check that precedes the
policy) and a customer whose count is at least 3, the call fails with
CUSTOMER_BLOCKED and the store is unchanged, regardless of the requested
slot.  Resetting the flag zeroes the count, after which the customer is not
blocked, and the closing conjuncts run the full round trip on a concrete
store: blocked booking rejected, then the same otherwise-valid booking
succeeds after the reset. -/
theorem C9_blocking (s : Store) (input : CreateAppointmentInput) (now : Int) (cid : Nat)
    (hpast : now < input.startTime)
    (hcount : getCustomerNoShowCount s input.customerId ≥ 3) :
    createAppointment s input now DEFAULT_BOOKING_CONFIG = (.failure .CUSTOMER_BLOCKED, s) ∧
    (s.noShowFlags.find? (fun f => f.customerId == cid) = none →
      getCustomerNoShowCount s cid = 0 ∧ isCustomerBlocked s cid 3 = false) ∧
    getCustomerNoShowCount (resetNoShowCount s cid) cid = 0 ∧
    isCustomerBlocked (resetNoShowCount s cid) cid 3 = false ∧
    (createAppointment c9blocked c1input1 demoMonday DEFAULT_BOOKING_CONFIG =
       (.failure .CUSTOMER_BLOCKED, c9blocked) ∧
     (createAppointment (resetNoShowCount c9blocked 0) c1input1 demoMonday
        DEFAULT_BOOKING_CONFIG).1 =
       .success { id := 0, barberId := 0, customerId := 0, serviceId := 0,
                  startTime := demoMonday + 10 * msPerHour,
                  endTime := demoMonday + 10 * msPerHour + 30 * msPerMinute,
                  status := .BOOKED, cancellationReason := none }) := by
  have h1 : ¬ input.startTime ≤ now := not_le.mpr hpast
  have hb : isCustomerBlocked s input.customerId 3 = true := by
    simp only [isCustomerBlocked]
    exact decide_eq_true hcount
  refine ⟨?_, ?_, getCount_reset s cid, ?_, by decide, by decide⟩
  · simp [createAppointment, h1, hb]
  · intro hnone
    constructor
    · simp [getCustomerNoShowCount, hnone]
    · simp [isCustomerBlocked, getCustomerNoShowCount, hnone]
  · simp [isCustomerBlocked, getCount_reset s cid]

theorem C9_blocking_witness :
    createAppointment c9blocked c1input1 demoMonday DEFAULT_BOOKING_CONFIG =
      (.failure .CUSTOMER_BLOCKED, c9blocked) :=
  (C9_blocking c9blocked c1input1 demoMonday 0 (by decide) (by decide)).1

theorem foldl_day_nonempty (dates : List Int) (dateOf : Int → Int)
    (slotsOf : Int → List TimeSlot) :
    ∀ acc : List DailyAvailability, (∀ d ∈ acc, d.slots ≠ []) →
    ∀ d ∈ dates.foldl (fun acc k =>
        if !(slotsOf k).isEmpty then acc ++ [{ date := dateOf k, slots := slotsOf k }]
        else acc) acc,
      d.slots ≠ [] := by
  induction dates with
  | nil => intro acc hacc d hd; exact hacc d hd
  | cons k rest ih =>
      intro acc hacc d hd
      simp only [List.foldl_cons] at hd
      refine ih _ ?_ d hd
      intro e he
      by_cases hk : (!(slotsOf k).isEmpty) = true
      · rw [if_pos hk] at he
        rcases List.mem_append.mp he with h1 | h1
        · exact hacc e h1
        · rcases List.mem_singleton.mp h1 with rfl
          simpa using hk
      · rw [if_neg hk] at he
        exact hacc e he

/-- Claim C10:  Whenever `getAvailableSlots` or `getBookableSlots` succeeds,
every per-day entry of the returned list carries at least one slot: a date
in the requested range with zero free windows — or whose windows all
quantize to zero discrete slots — is omitted entirely, never returned with
an empty slot list. -/
theorem C10_no_empty_days (s : Store) (input : AvailableSlotsInput) (now : Int)
    (cfg : BookingConfig) (interval : Int) (l l' : List DailyAvailability)
    (h : getAvailableSlots s input now cfg = .success l)
    (h' : getBookableSlots s input interval now cfg = .success l') :
    (∀ d ∈ l, d.slots ≠ []) ∧ (∀ d ∈ l', d.slots ≠ []) := by
  constructor
  · simp only [getAvailableSlots] at h
    split at h
    · exact absurd h (by simp)
    split at h
    · exact absurd h (by simp)
    split at h
    · exact absurd h (by simp)
    · rename_i barber _ _
      rw [ServiceResult.success.injEq] at h
      subst h
      exact foldl_day_nonempty _ _ _ [] (by simp)
  · simp only [getBookableSlots] at h'
    split at h'
    · exact absurd h' (by simp)
    · rename_i windows _
      rw [ServiceResult.success.injEq] at h'
      subst h'
      intro d hd
      have := (List.mem_filter.mp hd).2
      simpa using this

/-- A Monday window 09:00–09:30: it allows exactly one 30-minute slot. -/
def c10rule : Availability :=
  { isException := false, dayOfWeek := 1, date := none,
    startTime := some ⟨9, 0⟩, endTime := some ⟨9, 30⟩ }

def c10store : Store :=
  { demoStore with
    barbers := [{ id := 0, shopId := 0, active := true, availability := [c10rule] }] }

def c10day : DailyAvailability :=
  { date := demoMonday,
    slots := [{ startTime := demoMonday + 9 * msPerHour,
                endTime := demoMonday + 9 * msPerHour + 30 * msPerMinute }] }

theorem C10_no_empty_days_witness :
    (∀ d ∈ [c10day], d.slots ≠ []) ∧ (∀ d ∈ [c10day], d.slots ≠ []) :=
  C10_no_empty_days c10store ⟨0, demoMonday, demoMonday + 1, some 30⟩ demoMonday
    DEFAULT_BOOKING_CONFIG 15 [c10day] [c10day] (by decide) (by decide)
